import Mathlib

/-!
Shallow embedding of the BlenderRenderers scripts.

The repository is a collection of Blender python scripts that push per-frame
numpy vertex arrays into scene meshes and render them.  We embed the pure
logic of those scripts: numpy arrays become a shape together with row-major
rational data (float arithmetic is modelled exactly over the rationals),
raising a python exception becomes Except.error, and the stateful render
loops become explicit step functions on state records.
-/

namespace BlenderRenderers

/-- One 3D vertex.  The scripts use numpy float arrays of shape (N,3); the
arithmetic is modelled exactly over the rationals. -/
structure Vec3 where
  x : ℚ
  y : ℚ
  z : ℚ
deriving DecidableEq, Repr

instance : Add Vec3 := ⟨fun a b => ⟨a.x + b.x, a.y + b.y, a.z + b.z⟩⟩

instance : Sub Vec3 := ⟨fun a b => ⟨a.x - b.x, a.y - b.y, a.z - b.z⟩⟩

instance : SMul ℚ Vec3 := ⟨fun s v => ⟨s * v.x, s * v.y, s * v.z⟩⟩

/-- A numpy array as loaded by np.load: its shape and its row-major flat
data. -/
structure NpArray where
  shape : List Nat
  data : List ℚ
deriving DecidableEq, Repr

/-- V_np.ndim in numpy. -/
def NpArray.ndim (a : NpArray) : Nat := a.shape.length

/-- Group a flat [x0,y0,z0,x1,y1,z1,...] buffer back into vertices; this is
the shape the mesh vertex buffer takes after mesh.vertices.foreach_set. -/
def chunk3 : List ℚ → List Vec3
  | x :: y :: z :: rest => ⟨x, y, z⟩ :: chunk3 rest
  | _ => []

/-- Flatten an (N,3) vertex list into the row-major numpy buffer. -/
def flatten3 (vs : List Vec3) : List ℚ :=
  vs.flatMap fun v => [v.x, v.y, v.z]

/-- View an (N,3) list of vertices as the numpy array np.load returns for
it. -/
def toNpArray (vs : List Vec3) : NpArray :=
  ⟨[vs.length, 3], flatten3 vs⟩

/-- Whether an Except value is an error, standing for an uncaught python
exception. -/
def isErr {ε α : Type} : Except ε α → Bool
  | Except.error _ => true
  | Except.ok _ => false

/-- Embedding of update_mesh_vertices as it appears identically in
Multi-physics/run.py, dropingBoxes/render_sequence.py,
cloth_drop/run_slowmo_orbit.py, unroll/run.py and Twist_release/run.py:
raise ValueError unless V_np.ndim == 2 and V_np.shape[1] == 3, raise
ValueError unless V_np.shape[0] equals the mesh vertex count, otherwise
bulk-write the flattened data into the mesh vertex buffer.  A raise is
modelled as Except.error; the written buffer is the ok value. -/
def update_mesh_vertices (meshVerts : List Vec3) (V : NpArray) :
    Except String (List Vec3) :=
  if V.ndim ≠ 2 ∨ V.shape.getD 1 0 ≠ 3 then
    Except.error "ValueError: Expected (N,3) array"
  else if V.shape.getD 0 0 ≠ meshVerts.length then
    Except.error "ValueError: Vertex count mismatch"
  else
    Except.ok (chunk3 V.data)

/-- Boolean form of the acceptance condition of update_mesh_vertices. -/
def shapeMatches (meshVerts : List Vec3) (V : NpArray) : Bool :=
  V.ndim == 2 && V.shape.getD 1 0 == 3 && V.shape.getD 0 0 == meshVerts.length

/-- The mesh vertex buffer after a call to update_mesh_vertices: on a raise
the old buffer persists, because both shape checks precede the
foreach_set write in the source. -/
def meshAfterUpdate (meshVerts : List Vec3) (V : NpArray) : List Vec3 :=
  match update_mesh_vertices meshVerts V with
  | Except.ok m => m
  | Except.error _ => meshVerts

/-- Embedding of update_mesh_vertices from bullet/load_frame.py: on a vertex
count mismatch it prints an ERROR line and returns False without raising;
otherwise it bulk-writes via foreach_set (which itself raises if the
flattened buffer length does not match 3 times the mesh vertex count) and
returns True. -/
def bullet_update_mesh_vertices (meshVerts : List Vec3) (V : NpArray) :
    Except String (Bool × List Vec3) :=
  if V.shape.getD 0 0 ≠ meshVerts.length then
    Except.ok (false, meshVerts)
  else if V.data.length ≠ 3 * meshVerts.length then
    Except.error "RuntimeError: foreach_set length mismatch"
  else
    Except.ok (true, chunk3 V.data)

/-- Type of an object in the Blender scene (obj.type). -/
inductive ObjType where
  | mesh
  | other
deriving DecidableEq, Repr

/-- A named object of the host scene. -/
structure SceneObj where
  name : String
  type : ObjType
deriving DecidableEq, Repr

/-- The host scene's object table (bpy.context.scene.objects). -/
abbrev Scene := List SceneObj

/-- Embedding of get_mesh_obj (Multi-physics/run.py,
dropingBoxes/render_sequence.py, cloth_drop/run_slowmo_orbit.py,
unroll/run.py, Twist_release/run.py): look the name up in the scene and
raise RuntimeError if it is absent or not a mesh. -/
def get_mesh_obj (scene : Scene) (name : String) : Except String SceneObj :=
  match scene.find? (fun o => o.name == name) with
  | some o =>
    if o.type = ObjType.mesh then Except.ok o
    else Except.error ("RuntimeError: Cannot find mesh object " ++ name)
  | none => Except.error ("RuntimeError: Cannot find mesh object " ++ name)

/-- One soft-body entry of mesh_info.json. -/
structure SoftBodyInfo where
  name : String
  particle_start : Nat
  num_vertices : Nat
deriving DecidableEq, Repr

/-- One entry of the soft_body_meshes mapping built by Multi-physics/run.py. -/
structure SoftBodyMesh where
  objName : String
  particle_start : Nat
  num_vertices : Nat
deriving DecidableEq, Repr

/-- Embedding of the soft-body mapping loop of Multi-physics/run.py (lines
154-167): each manifest entry is resolved with get_mesh_obj inside a
try/except RuntimeError whose handler prints a warning, so an entry whose
object is missing or not a mesh is skipped and the run continues. -/
def buildSoftBodyMeshes (scene : Scene) (infos : List SoftBodyInfo) :
    List SoftBodyMesh :=
  infos.filterMap fun si =>
    match get_mesh_obj scene si.name with
    | Except.ok _ => some ⟨si.name, si.particle_start, si.num_vertices⟩
    | Except.error _ => none

/-- Embedding of the mesh_objs collection loop of
dropingBoxes/render_sequence.py (lines 194-198): get_mesh_obj is called
outside any try/except, so the first failure propagates and aborts. -/
def buildMeshObjs (scene : Scene) : List String → Except String (List SceneObj)
  | [] => Except.ok []
  | n :: ns =>
    match get_mesh_obj scene n with
    | Except.error e => Except.error e
    | Except.ok o =>
      match buildMeshObjs scene ns with
      | Except.error e => Except.error e
      | Except.ok os => Except.ok (o :: os)

/-- Embedding of the numpy slice particle_q[start : start + num_vertices]
used for soft bodies and the cloth in Multi-physics/run.py (lines 259-270). -/
def soft_body_slice (particle_start num_vertices : Nat)
    (particle_q : List Vec3) : List Vec3 :=
  (particle_q.drop particle_start).take num_vertices

/-- Embedding of one soft-body (or cloth) update of the Multi-physics main
loop: the loaded particle array is multiplied by the unit-scale factor,
the body's contiguous slice is taken, and update_mesh_vertices is called
on the body's mesh. -/
def softBodyFrameUpdate (meshVerts : List Vec3)
    (particle_start num_vertices : Nat) (particle_q : List Vec3)
    (scale : ℚ) : Except String (List Vec3) :=
  update_mesh_vertices meshVerts
    (toNpArray (soft_body_slice particle_start num_vertices
      (particle_q.map fun v => scale • v)))

/-- A quaternion with components named as in mathutils.Quaternion
(w, x, y, z). -/
structure Quat where
  w : ℚ
  x : ℚ
  y : ℚ
  z : ℚ
deriving DecidableEq, Repr

/-- Hamilton product of quaternions. -/
def qmul (a b : Quat) : Quat :=
  ⟨a.w * b.w - a.x * b.x - a.y * b.y - a.z * b.z,
   a.w * b.x + a.x * b.w + a.y * b.z - a.z * b.y,
   a.w * b.y - a.x * b.z + a.y * b.w + a.z * b.x,
   a.w * b.z + a.x * b.y - a.y * b.x + a.z * b.w⟩

/-- Quaternion conjugate. -/
def qconj (q : Quat) : Quat := ⟨q.w, -q.x, -q.y, -q.z⟩

/-- Squared norm of a quaternion. -/
def Quat.normSq (q : Quat) : ℚ :=
  q.w * q.w + q.x * q.x + q.y * q.y + q.z * q.z

/-- A 3x3 matrix with entry m_ij in row i, column j. -/
structure Mat3 where
  m00 : ℚ
  m01 : ℚ
  m02 : ℚ
  m10 : ℚ
  m11 : ℚ
  m12 : ℚ
  m20 : ℚ
  m21 : ℚ
  m22 : ℚ
deriving DecidableEq, Repr

/-- Embedding of mathutils Quaternion.to_matrix (quat_to_mat3), the matrix
np.array(quat_blender.to_matrix().to_3x3()) computed in
Multi-physics/run.py line 289, with exact rational arithmetic. -/
def quat_to_matrix (q : Quat) : Mat3 :=
  ⟨1 - 2 * (q.y * q.y + q.z * q.z),
   2 * (q.x * q.y - q.w * q.z),
   2 * (q.x * q.z + q.w * q.y),
   2 * (q.x * q.y + q.w * q.z),
   1 - 2 * (q.x * q.x + q.z * q.z),
   2 * (q.y * q.z - q.w * q.x),
   2 * (q.x * q.z - q.w * q.y),
   2 * (q.y * q.z + q.w * q.x),
   1 - 2 * (q.x * q.x + q.y * q.y)⟩

/-- Row-vector times transposed matrix, the per-row effect of the numpy
expression local_verts @ rot_matrix.T. -/
def rowMatTmul (v : Vec3) (M : Mat3) : Vec3 :=
  ⟨M.m00 * v.x + M.m01 * v.y + M.m02 * v.z,
   M.m10 * v.x + M.m11 * v.y + M.m12 * v.z,
   M.m20 * v.x + M.m21 * v.y + M.m22 * v.z⟩

/-- Embedding of the rigid-body update of the Multi-physics main loop
(lines 280-296): with transform = body_q[body_idx] a 7-vector
[px, py, pz, qx, qy, qz, qw], take position = transform[:3], reorder the
stored x,y,z,w quaternion into Blender's (w, x, y, z), convert it to a
rotation matrix, compute local_verts @ rot_matrix.T + position, and scale
to meters. -/
def updateRigidFromPose (local_verts : List Vec3) (transform : List ℚ)
    (scale : ℚ) : List Vec3 :=
  let position : Vec3 := ⟨transform.getD 0 0, transform.getD 1 0, transform.getD 2 0⟩
  let quat_blender : Quat :=
    ⟨transform.getD 6 0, transform.getD 3 0, transform.getD 4 0, transform.getD 5 0⟩
  let rot := quat_to_matrix quat_blender
  let world := local_verts.map fun v => rowMatTmul v rot + position
  world.map fun v => scale • v

/-- Rotation of a vector by a quaternion, defined mathematically as the
sandwich product q v q-conjugate; for a unit quaternion this is the
rotation R(q) of the claim. -/
def quatRotate (q : Quat) (v : Vec3) : Vec3 :=
  let r := qmul (qmul q ⟨0, v.x, v.y, v.z⟩) (qconj q)
  ⟨r.x, r.y, r.z⟩

/-- The world-space vertices the specification promises for a rigid body:
local vertices rotated by the pose quaternion, translated by the pose
position, then multiplied by the unit-scale factor. -/
def rigidWorldSpec (L : List Vec3) (p : Vec3) (q : Quat) (scale : ℚ) :
    List Vec3 :=
  L.map fun v => scale • (quatRotate q v + p)

/-- Embedding of lerp_vertices from cloth_drop/run_slowmo_orbit.py
(147-149): elementwise v0 * (1 - t) + v1 * t. -/
def lerp_vertices (v0 v1 : List Vec3) (t : ℚ) : List Vec3 :=
  List.zipWith (fun a b => (1 - t) • a + t • b) v0 v1

/-- Embedding of the slow-motion render loop of
cloth_drop/run_slowmo_orbit.py (lines 234-266) restricted to the vertex
data it pushes: for each consecutive pair (a, b) of source frames it emits
slowdown interpolated arrays at t = sub / slowdown. -/
def slowmoOutputs (frames : Nat → List Vec3) :
    List (Nat × Nat) → Nat → List (List Vec3)
  | [], _ => []
  | ab :: ps, slowdown =>
    ((List.range slowdown).map fun (sub : Nat) =>
      lerp_vertices (frames ab.1) (frames ab.2) ((sub : ℚ) / (slowdown : ℚ)))
      ++ slowmoOutputs frames ps slowdown

/-- The interpolated vertex arrays the slow-motion loop renders, in order:
consecutive source pairs come from zipping the source index list with its
tail (pair_idx and pair_idx + 1 of the python loop). -/
def slowmoRender (frames : Nat → List Vec3) (sourceIndices : List Nat)
    (slowdown : Nat) : List (List Vec3) :=
  slowmoOutputs frames (sourceIndices.zip sourceIndices.tail) slowdown

/-- The state orbit_camera reads and writes: the camera's location and the
direction it is made to point along (the track-to input), plus the orbit
center and look-at points, which the function only reads. -/
structure OrbitWorld where
  camLocation : Vec3
  camDir : Vec3
  orbitCenter : Vec3
  lookAt : Vec3
deriving DecidableEq, Repr

/-- Embedding of orbit_camera from cloth_drop/run_slowmo_orbit.py (lines
151-183).  The python computes cos_a and sin_a with math.cos and math.sin;
here they are passed in as the already-evaluated trigonometric values.
The camera location becomes orbit_center plus the Z-rotated offset of the
initial location, and the camera is pointed along look_at minus the new
location (the vector handed to to_track_quat). -/
def orbit_camera (w : OrbitWorld) (initial_location : Vec3)
    (cos_a sin_a : ℚ) : OrbitWorld :=
  let offset := initial_location - w.orbitCenter
  let new_offset : Vec3 :=
    ⟨offset.x * cos_a - offset.y * sin_a,
     offset.x * sin_a + offset.y * cos_a,
     offset.z⟩
  let newLoc := w.orbitCenter + new_offset
  { w with camLocation := newLoc, camDir := w.lookAt - newLoc }

/-- Zero-pad a decimal number to width at least 6, python's format spec
06d used in the frame file names. -/
def zeroPad6 (n : Nat) : String :=
  let s := toString n
  String.mk (List.replicate (6 - s.length) '0') ++ s

/-- The mesh_components table of dropingBoxes/render_sequence.py: scene
object name paired with its npy subfolder. -/
def mesh_components : List (String × String) :=
  [("Box1", "box1"), ("Box2", "box2"), ("Box3", "box3"), ("Box4", "box4"),
   ("Cloth1", "cloth1"), ("Cloth2", "cloth2")]

/-- Embedding of get_frame_path from dropingBoxes/render_sequence.py
(lines 157-159): join(inFolder, component_folder, frame_NNNNNN.npy). -/
def get_frame_path (inFolder component : String) (frame_num : Nat) : String :=
  inFolder ++ "/" ++ component ++ "/" ++ "frame_" ++ zeroPad6 frame_num ++ ".npy"

/-- Embedding of frame_exists from dropingBoxes/render_sequence.py (lines
162-167): true precisely when the frame file of every configured component
is present; existing is the set of paths present on disk. -/
def frame_exists (inFolder : String) (existing : List String)
    (frame_num : Nat) : Bool :=
  mesh_components.all fun c => existing.contains (get_frame_path inFolder c.2 frame_num)

/-- A filesystem snapshot: the npy files present, as path-content pairs. -/
abbrev FrameStore := List (String × NpArray)

/-- np.load on a stored path. -/
def lookupFile (fs : FrameStore) (p : String) : Option NpArray :=
  (fs.find? fun e => e.1 == p).map Prod.snd

/-- Write new vertices into the named mesh of the mesh_objs table,
propagating the ValueError of update_mesh_vertices; an absent name would
be a python KeyError. -/
def setMeshVerts (name : String) (V : NpArray) :
    List (String × List Vec3) → Except String (List (String × List Vec3))
  | [] => Except.error "KeyError"
  | m :: rest =>
    if m.1 == name then
      match update_mesh_vertices m.2 V with
      | Except.error e => Except.error e
      | Except.ok verts2 => Except.ok ((m.1, verts2) :: rest)
    else
      match setMeshVerts name V rest with
      | Except.error e => Except.error e
      | Except.ok rest2 => Except.ok ((m.1, m.2) :: rest2)

/-- Embedding of load_frame from dropingBoxes/render_sequence.py (lines
170-175): for every component, load its frame file and update the mesh. -/
def load_frame_model (inFolder : String) (fs : FrameStore) (n : Nat) :
    List (String × String) → List (String × List Vec3) →
      Except String (List (String × List Vec3))
  | [], meshes => Except.ok meshes
  | comp :: comps, meshes =>
    match lookupFile fs (get_frame_path inFolder comp.2 n) with
    | none => Except.error "FileNotFoundError"
    | some V =>
      match setMeshVerts comp.1 V meshes with
      | Except.error e => Except.error e
      | Except.ok meshes2 => load_frame_model inFolder fs n comps meshes2

/-- Configuration of the dropingBoxes render loop. -/
structure RenderConfig where
  numFrames : Nat
  stride : Nat
deriving DecidableEq, Repr

/-- State of the dropingBoxes render loop: the next frame number, how many
frames were rendered, the mesh buffers, the frame numbers rendered so far,
and the durations of the sleeps performed. -/
structure RenderState where
  frame_num : Nat
  rendered_count : Nat
  meshes : List (String × List Vec3)
  outputs : List Nat
  sleeps : List Nat
deriving DecidableEq, Repr

/-- Embedding of one iteration of the dropingBoxes render loop (lines
213-235): if the target count is reached the state is final; if the next
frame's files are not all present, sleep 60 seconds and retry with nothing
else changed; otherwise load the frame into the meshes, render it, and
advance the frame number by the stride. -/
def renderLoopStep (inFolder : String) (cfg : RenderConfig) (fs : FrameStore)
    (st : RenderState) : Except String RenderState :=
  if cfg.numFrames ≤ st.rendered_count then Except.ok st
  else if frame_exists inFolder (fs.map Prod.fst) st.frame_num = false then
    Except.ok { st with sleeps := st.sleeps ++ [60] }
  else
    match load_frame_model inFolder fs st.frame_num mesh_components st.meshes with
    | Except.error e => Except.error e
    | Except.ok ms =>
      Except.ok { frame_num := st.frame_num + cfg.stride,
                  rendered_count := st.rendered_count + 1,
                  meshes := ms,
                  outputs := st.outputs ++ [st.frame_num],
                  sleeps := st.sleeps }

/-- Run n iterations of the dropingBoxes render loop; iteration i sees the
filesystem snapshot fsSeq i, modelling the rescan after each sleep. -/
def loopIter (inFolder : String) (cfg : RenderConfig)
    (fsSeq : Nat → FrameStore) : Nat → RenderState → Except String RenderState
  | 0, st => Except.ok st
  | n + 1, st =>
    match renderLoopStep inFolder cfg (fsSeq 0) st with
    | Except.error e => Except.error e
    | Except.ok st2 => loopIter inFolder cfg (fun i => fsSeq (i + 1)) n st2

/-- State of the batchedRendering while-loop of
Scripts/M02_RenderScripts.py (lines 144-157): the frame counter s.fileId,
how many times the file list has been rescanned, and whether the loop has
exited. -/
structure M02State where
  fileId : Nat
  rescans : Nat
  done : Bool
deriving DecidableEq, Repr

/-- Embedding of one pass of batchedRendering's while-loop exactly as
indented in the source: the loop body holds only the two exit checks and
the wait-and-rescan branch; the statements that advance s.fileId (and the
rendering) sit after the loop, so an in-range fileId with its frame file
already present changes nothing.  fileCount r is the number of matching
model files the r-th rescan finds. -/
def m02Step (numFrames : Nat) (fileCount : Nat → Nat)
    (waitForNewFrames : Bool) (st : M02State) : M02State :=
  if st.done then st
  else if numFrames ≤ st.fileId then { st with done := true }
  else if fileCount st.rescans ≤ st.fileId then
    if waitForNewFrames then { st with rescans := st.rescans + 1 }
    else { st with done := true }
  else st

/-- Embedding of the unroll renderer's per-frame update (unroll/run.py
lines 151-158): V = np.load(npy_path)[66:] discards the collider rows,
then update_mesh_vertices applies the rest to the target mesh. -/
def unrollFrameUpdate (meshVerts : List Vec3) (frame : List Vec3) :
    Except String (List Vec3) :=
  update_mesh_vertices meshVerts (toNpArray (frame.drop 66))

/-! Helper lemmas. -/

@[simp] theorem Vec3.add_x (a b : Vec3) : (a + b).x = a.x + b.x := rfl

@[simp] theorem Vec3.add_y (a b : Vec3) : (a + b).y = a.y + b.y := rfl

@[simp] theorem Vec3.add_z (a b : Vec3) : (a + b).z = a.z + b.z := rfl

@[simp] theorem Vec3.sub_x (a b : Vec3) : (a - b).x = a.x - b.x := rfl

@[simp] theorem Vec3.sub_y (a b : Vec3) : (a - b).y = a.y - b.y := rfl

@[simp] theorem Vec3.sub_z (a b : Vec3) : (a - b).z = a.z - b.z := rfl

@[simp] theorem Vec3.smul_x (s : ℚ) (v : Vec3) : (s • v).x = s * v.x := rfl

@[simp] theorem Vec3.smul_y (s : ℚ) (v : Vec3) : (s • v).y = s * v.y := rfl

@[simp] theorem Vec3.smul_z (s : ℚ) (v : Vec3) : (s • v).z = s * v.z := rfl

@[simp] theorem exceptIsOk_ok {ε α : Type} (a : α) :
    (Except.ok a : Except ε α).isOk = true := rfl

@[simp] theorem exceptIsOk_error {ε α : Type} (e : ε) :
    (Except.error e : Except ε α).isOk = false := rfl

@[simp] theorem isErr_ok {ε α : Type} (a : α) :
    isErr (Except.ok a : Except ε α) = false := rfl

@[simp] theorem isErr_error {ε α : Type} (e : ε) :
    isErr (Except.error e : Except ε α) = true := rfl

theorem chunk3_length_of_three_mul :
    ∀ (n : Nat) (l : List ℚ), l.length = 3 * n → (chunk3 l).length = n := by
  intro n
  induction n with
  | zero =>
    intro l hl
    cases l with
    | nil => rfl
    | cons a t => simp at hl
  | succ m ih =>
    intro l hl
    match l with
    | [] => simp at hl
    | [a] => simp at hl; omega
    | [a, b] => simp at hl; omega
    | a :: b :: c :: rest =>
      have hr : rest.length = 3 * m := by
        simp [List.length_cons] at hl
        omega
      simp [chunk3, ih rest hr]

theorem chunk3_flatten3 (vs : List Vec3) : chunk3 (flatten3 vs) = vs := by
  induction vs with
  | nil => rfl
  | cons v t ih =>
    simp [flatten3] at ih ⊢
    simpa [chunk3] using ih

theorem update_ok_iff (meshVerts : List Vec3) (V : NpArray) :
    (update_mesh_vertices meshVerts V).isOk = true ↔
      V.shape = [meshVerts.length, 3] := by
  rcases V with ⟨shape, data⟩
  match shape with
  | [] =>
    simp [update_mesh_vertices, NpArray.ndim]
  | [a] =>
    simp [update_mesh_vertices, NpArray.ndim]
  | [a, b] =>
    by_cases hb : b = 3
    · by_cases ha : a = meshVerts.length
      · subst hb; subst ha
        simp [update_mesh_vertices, NpArray.ndim]
      · simp [update_mesh_vertices, NpArray.ndim, hb, ha]
    · simp [update_mesh_vertices, NpArray.ndim, hb]
  | a :: b :: c :: rest =>
    simp [update_mesh_vertices, NpArray.ndim]

theorem update_of_shape_ok (meshVerts : List Vec3) (V : NpArray)
    (h : V.shape = [meshVerts.length, 3]) :
    update_mesh_vertices meshVerts V = Except.ok (chunk3 V.data) := by
  rcases V with ⟨shape, data⟩
  simp at h
  subst h
  simp [update_mesh_vertices, NpArray.ndim]

theorem update_toNpArray (meshVerts vs : List Vec3)
    (h : vs.length = meshVerts.length) :
    update_mesh_vertices meshVerts (toNpArray vs) = Except.ok vs := by
  rw [update_of_shape_ok]
  · simp [toNpArray, chunk3_flatten3]
  · simp [toNpArray, h]

/-! Claim theorems. -/

/-- C1 counterexample: the claim says any shape mismatch is an immediate
fatal, unrecovered error, but the bullet loader's update_mesh_vertices
(bullet/load_frame.py lines 36-47) handles a row-count mismatch by
printing and returning False: here a (2,3) array against a 1-vertex mesh
produces a normal (no-exception) return with the mesh unchanged. -/
theorem bullet_mismatch_not_fatal :
    bullet_update_mesh_vertices [⟨0, 0, 0⟩] ⟨[2, 3], [1, 2, 3, 4, 5, 6]⟩
      = Except.ok (false, [⟨0, 0, 0⟩]) := by
  rfl

/-- C1 (amended): in the sequence renderers update_mesh_vertices accepts an
array exactly when its shape is (mesh vertex count, 3); any mismatch
raises and leaves the vertex buffer unchanged; an accepted array is
written in full.  The bullet loader's variant instead returns False on a
row-count mismatch without raising, also leaving the buffer unchanged. -/
theorem update_mesh_vertices_contract (meshVerts : List Vec3) (V : NpArray)
    (hwf : V.data.length = V.shape.prod) :
    ((update_mesh_vertices meshVerts V).isOk = true ↔
        V.shape = [meshVerts.length, 3])
    ∧ (V.shape ≠ [meshVerts.length, 3] →
        isErr (update_mesh_vertices meshVerts V) = true
        ∧ meshAfterUpdate meshVerts V = meshVerts)
    ∧ (V.shape = [meshVerts.length, 3] →
        update_mesh_vertices meshVerts V = Except.ok (chunk3 V.data)
        ∧ (chunk3 V.data).length = meshVerts.length)
    ∧ (V.shape.getD 0 0 ≠ meshVerts.length →
        bullet_update_mesh_vertices meshVerts V = Except.ok (false, meshVerts)) := by
  refine ⟨update_ok_iff meshVerts V, ?_, ?_, ?_⟩
  · intro hne
    have hnotok : (update_mesh_vertices meshVerts V).isOk ≠ true := by
      intro hok
      exact hne ((update_ok_iff meshVerts V).mp hok)
    rcases hE : update_mesh_vertices meshVerts V with e | m
    · exact ⟨by simp, by simp [meshAfterUpdate, hE]⟩
    · exact absurd (by simp [hE]) hnotok
  · intro hsh
    refine ⟨update_of_shape_ok meshVerts V hsh, ?_⟩
    apply chunk3_length_of_three_mul
    rw [hwf, hsh]
    simp [Nat.mul_comm]
  · intro hne
    unfold bullet_update_mesh_vertices
    rw [if_pos hne]

/-- C1 witness: the contract applied to a 1-vertex mesh and a (2,3) array. -/
theorem update_mesh_vertices_contract_witness :
    (((update_mesh_vertices [(⟨0, 0, 0⟩ : Vec3)] ⟨[2, 3], [1, 2, 3, 4, 5, 6]⟩).isOk = true ↔
        ([2, 3] : List Nat) = [1, 3])
      ∧ (([2, 3] : List Nat) ≠ [1, 3] →
          isErr (update_mesh_vertices [(⟨0, 0, 0⟩ : Vec3)] ⟨[2, 3], [1, 2, 3, 4, 5, 6]⟩) = true
          ∧ meshAfterUpdate [(⟨0, 0, 0⟩ : Vec3)] ⟨[2, 3], [1, 2, 3, 4, 5, 6]⟩ = [⟨0, 0, 0⟩])
      ∧ (([2, 3] : List Nat) = [1, 3] →
          update_mesh_vertices [(⟨0, 0, 0⟩ : Vec3)] ⟨[2, 3], [1, 2, 3, 4, 5, 6]⟩
            = Except.ok (chunk3 [1, 2, 3, 4, 5, 6])
          ∧ (chunk3 [(1 : ℚ), 2, 3, 4, 5, 6]).length = 1)
      ∧ (([2, 3] : List Nat).getD 0 0 ≠ 1 →
          bullet_update_mesh_vertices [(⟨0, 0, 0⟩ : Vec3)] ⟨[2, 3], [1, 2, 3, 4, 5, 6]⟩
            = Except.ok (false, [⟨0, 0, 0⟩]))) :=
  update_mesh_vertices_contract [⟨0, 0, 0⟩] ⟨[2, 3], [1, 2, 3, 4, 5, 6]⟩ (by simp)

/-- C3 counterexample: the claim says a missing named scene object always
raises and aborts the run, but the Multi-physics mapping phase catches the
RuntimeError: with an empty scene and a manifest naming a soft body
"sphere", get_mesh_obj does raise, yet buildSoftBodyMeshes returns
normally with the body skipped and the run continues. -/
theorem missing_soft_body_skipped :
    isErr (get_mesh_obj [] "sphere") = true
    ∧ buildSoftBodyMeshes [] [⟨"sphere", 0, 10⟩] = [] :=
  ⟨rfl, rfl⟩

/-- C3 (amended): in dropingBoxes (and the other sequence renderers) a
required object that is missing or not a mesh makes get_mesh_obj raise and
the collection loop propagates the exception, so the run aborts; in
Multi-physics the mapping phase catches the RuntimeError per entry and
keeps exactly the manifest entries whose object resolves to a mesh,
skipping the rest with a warning. -/
theorem missing_object_handling (scene : Scene) (names : List String)
    (infos : List SoftBodyInfo) :
    ((buildMeshObjs scene names).isOk = true ↔
        ∀ n ∈ names, (get_mesh_obj scene n).isOk = true)
    ∧ buildSoftBodyMeshes scene infos
        = (infos.filter fun si => (get_mesh_obj scene si.name).isOk).map
            (fun si => ⟨si.name, si.particle_start, si.num_vertices⟩) := by
  constructor
  · induction names with
    | nil => simp [buildMeshObjs]
    | cons n ns ih =>
      constructor
      · intro hok
        simp only [buildMeshObjs] at hok
        rcases hg : get_mesh_obj scene n with e | o
        · rw [hg] at hok; simp at hok
        · rw [hg] at hok
          rcases hb : buildMeshObjs scene ns with e2 | os
          · rw [hb] at hok; simp at hok
          · intro m hm
            rcases List.mem_cons.mp hm with h1 | h2
            · subst h1; simp [hg]
            · exact (ih.mp (by rw [hb]; simp)) m h2
      · intro hall
        have hns : (buildMeshObjs scene ns).isOk = true :=
          ih.mpr (fun m hm => hall m (List.mem_cons_of_mem _ hm))
        have hn := hall n (List.mem_cons_self n ns)
        simp only [buildMeshObjs]
        rcases hg : get_mesh_obj scene n with e | o
        · rw [hg] at hn; simp at hn
        · rcases hb : buildMeshObjs scene ns with e2 | os
          · rw [hb] at hns; simp at hns
          · simp
  · induction infos with
    | nil => rfl
    | cons si rest ih =>
      rcases hg : get_mesh_obj scene si.name with e | o
      · simp [buildSoftBodyMeshes, List.filterMap_cons, hg] at ih ⊢
        exact ih
      · simp [buildSoftBodyMeshes, List.filterMap_cons, hg] at ih ⊢
        exact ih

/-- C2 code bug witness: batchedRendering in Scripts/M02_RenderScripts.py
is entered with fileId 0; with numFrames 1, one model file present and
waitForNewFrames False, the while-loop body (which holds only the exit
checks, the increment being indented outside the loop) changes nothing, so
every iterate of the loop step is the initial state and the loop never
terminates, contrary to the claimed termination once the target frame
count is reached. -/
theorem batchedRendering_stuck :
    m02Step 1 (fun _ => 1) false ⟨0, 0, false⟩ = ⟨0, 0, false⟩
    ∧ ∀ n : Nat, (m02Step 1 (fun _ => 1) false)^[n] ⟨0, 0, false⟩ = ⟨0, 0, false⟩ := by
  have h : m02Step 1 (fun _ => 1) false ⟨0, 0, false⟩ = ⟨0, 0, false⟩ := rfl
  exact ⟨h, fun n => Function.iterate_fixed h n⟩

theorem quat_to_matrix_rotate (q : Quat) (v : Vec3) (h : q.normSq = 1) :
    rowMatTmul v (quat_to_matrix q) = quatRotate q v := by
  rcases q with ⟨w, x, y, z⟩
  rcases v with ⟨vx, vy, vz⟩
  simp only [rowMatTmul, quat_to_matrix, quatRotate, qmul, qconj,
    Quat.normSq] at h ⊢
  rw [Vec3.mk.injEq]
  refine ⟨?_, ?_, ?_⟩
  · linear_combination (-vx) * h
  · linear_combination (-vy) * h
  · linear_combination (-vz) * h

/-- C4: for a rigid body with local vertices L and a 7-component pose
[px, py, pz, qx, qy, qz, qw], the world vertices the Multi-physics loop
writes equal the specification's rotate-then-translate-then-scale formula,
with the rotation being the genuine rotation action (quaternion sandwich)
of the pose quaternion, provided the pose quaternion is a unit quaternion. -/
theorem rigid_body_world_transform (local_verts : List Vec3)
    (transform : List ℚ) (scale : ℚ)
    (hq : Quat.normSq ⟨transform.getD 6 0, transform.getD 3 0,
            transform.getD 4 0, transform.getD 5 0⟩ = 1) :
    updateRigidFromPose local_verts transform scale
      = rigidWorldSpec local_verts
          ⟨transform.getD 0 0, transform.getD 1 0, transform.getD 2 0⟩
          ⟨transform.getD 6 0, transform.getD 3 0,
           transform.getD 4 0, transform.getD 5 0⟩
          scale := by
  unfold updateRigidFromPose rigidWorldSpec
  rw [List.map_map]
  apply List.map_congr_left
  intro v hv
  simp only [Function.comp_apply]
  rw [quat_to_matrix_rotate _ _ hq]

/-- C4 witness: the identity pose quaternion stored as [0,0,0,1] with
position [4,5,6] and the cm-to-m scale. -/
theorem rigid_body_world_transform_witness :
    Quat.normSq ⟨1, 0, 0, 0⟩ = 1
    ∧ updateRigidFromPose [⟨1, 2, 3⟩] [4, 5, 6, 0, 0, 0, 1] (1 / 100)
        = rigidWorldSpec [⟨1, 2, 3⟩] ⟨4, 5, 6⟩ ⟨1, 0, 0, 0⟩ (1 / 100) :=
  ⟨by norm_num [Quat.normSq],
   rigid_body_world_transform [⟨1, 2, 3⟩] [4, 5, 6, 0, 0, 0, 1] (1 / 100)
     (by norm_num [Quat.normSq])⟩

theorem slice_of_scaled (particle_q : List Vec3) (s k : Nat) (scale : ℚ) :
    soft_body_slice s k (particle_q.map fun v => scale • v)
      = ((particle_q.drop s).take k).map fun v => scale • v := by
  simp [soft_body_slice, List.map_take, List.map_drop]

/-- C6: each soft body (and the cloth) with manifest entry (s, k) receives
exactly rows s .. s+k-1 of the scale-multiplied particle array, in order,
and no other rows of the particle array affect the result. -/
theorem soft_body_contiguous_slice (meshVerts particle_q : List Vec3)
    (s k : Nat) (scale : ℚ)
    (hk : k = meshVerts.length) (hlen : s + k ≤ particle_q.length) :
    softBodyFrameUpdate meshVerts s k particle_q scale
      = Except.ok (((particle_q.drop s).take k).map fun v => scale • v)
    ∧ (∀ i, i < k →
        ((((particle_q.drop s).take k).map fun v => scale • v)[i]?
          = (particle_q[s + i]?).map fun v => scale • v))
    ∧ (∀ particle_q2 : List Vec3,
        (particle_q2.drop s).take k = (particle_q.drop s).take k →
        softBodyFrameUpdate meshVerts s k particle_q2 scale
          = softBodyFrameUpdate meshVerts s k particle_q scale) := by
  refine ⟨?_, ?_, ?_⟩
  · unfold softBodyFrameUpdate
    rw [slice_of_scaled]
    apply update_toNpArray
    rw [List.length_map, List.length_take, List.length_drop]
    omega
  · intro i hi
    rw [List.getElem?_map, List.getElem?_take, if_pos hi, List.getElem?_drop]
  · intro pq2 hagree
    unfold softBodyFrameUpdate
    rw [slice_of_scaled, slice_of_scaled, hagree]

/-- C6 witness: a 1-vertex mesh receiving row 1 of a 3-row particle array
with scale 2. -/
theorem soft_body_contiguous_slice_witness :
    (1 : Nat) = [(⟨7, 7, 7⟩ : Vec3)].length
    ∧ 1 + 1 ≤ [(⟨1, 1, 1⟩ : Vec3), ⟨2, 2, 2⟩, ⟨3, 3, 3⟩].length
    ∧ softBodyFrameUpdate [⟨7, 7, 7⟩] 1 1 [⟨1, 1, 1⟩, ⟨2, 2, 2⟩, ⟨3, 3, 3⟩] 2
        = Except.ok (((([(⟨1, 1, 1⟩ : Vec3), ⟨2, 2, 2⟩, ⟨3, 3, 3⟩]).drop 1).take 1).map
            fun v => (2 : ℚ) • v) :=
  ⟨rfl, by simp,
   (soft_body_contiguous_slice [⟨7, 7, 7⟩] [⟨1, 1, 1⟩, ⟨2, 2, 2⟩, ⟨3, 3, 3⟩]
     1 1 2 rfl (by simp)).1⟩

theorem Vec3.eq_of_comps (a b : Vec3) (hx : a.x = b.x) (hy : a.y = b.y)
    (hz : a.z = b.z) : a = b := by
  cases a; cases b
  simp at hx hy hz
  simp [hx, hy, hz]

theorem vec_lerp_zero (x y : Vec3) : (1 - (0 : ℚ)) • x + (0 : ℚ) • y = x := by
  apply Vec3.eq_of_comps <;> simp

theorem vec_lerp_same (t : ℚ) (v : Vec3) : (1 - t) • v + t • v = v := by
  apply Vec3.eq_of_comps <;> · simp; ring

theorem slowmoOutputs_length (frames : Nat → List Vec3)
    (ps : List (Nat × Nat)) (slowdown : Nat) :
    (slowmoOutputs frames ps slowdown).length = ps.length * slowdown := by
  induction ps with
  | nil => simp [slowmoOutputs]
  | cons ab tl ih =>
    simp only [slowmoOutputs, List.length_append, List.length_map,
      List.length_range, ih, List.length_cons]
    ring

theorem slowmoOutputs_getElem (frames : Nat → List Vec3)
    (ps : List (Nat × Nat)) (slowdown : Nat) (p sub : Nat)
    (hp : p < ps.length) (hs : sub < slowdown) :
    (slowmoOutputs frames ps slowdown)[p * slowdown + sub]?
      = ps[p]?.map fun ab =>
          lerp_vertices (frames ab.1) (frames ab.2) ((sub : ℚ) / (slowdown : ℚ)) := by
  induction ps generalizing p with
  | nil => simp at hp
  | cons ab tl ih =>
    have hlen : ((List.range slowdown).map fun (sub : Nat) =>
        lerp_vertices (frames ab.1) (frames ab.2) ((sub : ℚ) / (slowdown : ℚ))).length
          = slowdown := by simp
    cases p with
    | zero =>
      rw [slowmoOutputs, List.getElem?_append, hlen, if_pos (by omega)]
      have hidx : 0 * slowdown + sub = sub := by omega
      rw [hidx, List.getElem?_map]
      simp [List.getElem?_range, hs]
    | succ p2 =>
      have hmul : (p2 + 1) * slowdown = p2 * slowdown + slowdown :=
        Nat.succ_mul p2 slowdown
      rw [slowmoOutputs, List.getElem?_append, hlen, if_neg (by omega)]
      have hidx : (p2 + 1) * slowdown + sub - slowdown = p2 * slowdown + sub := by
        omega
      rw [hidx, ih p2 (by simpa using hp)]
      simp

theorem zip_tail_getElem (l : List Nat) (p : Nat) (hp : p + 1 < l.length) :
    (l.zip l.tail)[p]? = some (l.getD p 0, l.getD (p + 1) 0) := by
  induction l generalizing p with
  | nil => simp at hp
  | cons a tl ih =>
    cases tl with
    | nil => simp at hp
    | cons b t =>
      cases p with
      | zero => simp
      | succ p2 =>
        have hp2 : p2 + 1 < (b :: t).length := by simpa using hp
        simpa using ih p2 hp2

theorem lerp_vertices_zero (a b : List Vec3) (h : a.length = b.length) :
    lerp_vertices a b 0 = a := by
  induction a generalizing b with
  | nil => simp [lerp_vertices]
  | cons x xs ih =>
    cases b with
    | nil => simp at h
    | cons y ys =>
      simp only [lerp_vertices, List.zipWith_cons_cons]
      rw [vec_lerp_zero]
      simp only [List.length_cons] at h
      have := ih ys (by omega)
      simp [lerp_vertices] at this
      simp [this]

theorem lerp_vertices_same (a : List Vec3) (t : ℚ) :
    lerp_vertices a a t = a := by
  induction a with
  | nil => simp [lerp_vertices]
  | cons x xs ih =>
    simp only [lerp_vertices, List.zipWith_cons_cons]
    rw [vec_lerp_same]
    simp [lerp_vertices] at ih
    simp [ih]

/-- C7: in the slow-motion renderer, output p * slowdown + sub interpolates
consecutive source frames a and b at t = sub / slowdown, which lies in
[0, 1); at sub = 0 the interpolation of arrays of equal shape is exactly
frame a; interpolating two equal frames yields that frame for every t; and
the total number of outputs is (number of source frames - 1) * slowdown. -/
theorem slowmo_interpolation (frames : Nat → List Vec3) (si : List Nat)
    (slowdown : Nat) (hslow : 1 ≤ slowdown) :
    (slowmoRender frames si slowdown).length = (si.length - 1) * slowdown
    ∧ (∀ p sub : Nat, p + 1 < si.length → sub < slowdown →
        (slowmoRender frames si slowdown)[p * slowdown + sub]?
          = some (lerp_vertices (frames (si.getD p 0)) (frames (si.getD (p + 1) 0))
              ((sub : ℚ) / (slowdown : ℚ)))
        ∧ 0 ≤ (sub : ℚ) / (slowdown : ℚ)
        ∧ (sub : ℚ) / (slowdown : ℚ) < 1)
    ∧ (∀ a b : List Vec3, a.length = b.length → lerp_vertices a b 0 = a)
    ∧ (∀ (a : List Vec3) (t : ℚ), lerp_vertices a a t = a) := by
  have hzlen : (si.zip si.tail).length = si.length - 1 := by
    rw [List.length_zip, List.length_tail]
    exact Nat.min_eq_right (Nat.sub_le _ _)
  refine ⟨?_, ?_, lerp_vertices_zero, lerp_vertices_same⟩
  · rw [slowmoRender, slowmoOutputs_length, hzlen]
  · intro p sub hp hsub
    have hpz : p < (si.zip si.tail).length := by omega
    refine ⟨?_, ?_, ?_⟩
    · rw [slowmoRender, slowmoOutputs_getElem frames _ slowdown p sub hpz hsub,
        zip_tail_getElem si p hp]
      rfl
    · positivity
    · rw [div_lt_one (by positivity)]
      exact_mod_cast hsub

/-- C7 witness: two source frames and slowdown 1. -/
theorem slowmo_interpolation_witness :
    (1 : Nat) ≤ 1
    ∧ (slowmoRender (fun _ => ([] : List Vec3)) [0, 1] 1).length
        = (([0, 1] : List Nat).length - 1) * 1 :=
  ⟨by decide,
   (slowmo_interpolation (fun _ => ([] : List Vec3)) [0, 1] 1 (by decide)).1⟩

/-- C5: while the next frame's files are absent, an iteration of the
dropingBoxes render loop only appends one fixed 60-second sleep, leaving
the frame counter, every mesh, and the rendered outputs unchanged;
iterating under persistent absence produces n identical 60-second sleeps
for every n (no backoff, no retry bound); and an iteration can add an
output only when all the frame's files exist. -/
theorem wait_and_retry_behavior (inFolder : String) (cfg : RenderConfig)
    (fsSeq : Nat → FrameStore) (st : RenderState)
    (hrun : st.rendered_count < cfg.numFrames)
    (habs : ∀ i, frame_exists inFolder ((fsSeq i).map Prod.fst) st.frame_num = false) :
    renderLoopStep inFolder cfg (fsSeq 0) st
      = Except.ok { st with sleeps := st.sleeps ++ [60] }
    ∧ (∀ n : Nat, loopIter inFolder cfg fsSeq n st
        = Except.ok { st with sleeps := st.sleeps ++ List.replicate n 60 })
    ∧ (∀ (fs : FrameStore) (st1 st2 : RenderState),
        renderLoopStep inFolder cfg fs st1 = Except.ok st2 →
        st2.outputs ≠ st1.outputs →
        frame_exists inFolder (fs.map Prod.fst) st1.frame_num = true) := by
  have hstep : ∀ (fsS : Nat → FrameStore) (s : RenderState),
      s.rendered_count < cfg.numFrames →
      (∀ i, frame_exists inFolder ((fsS i).map Prod.fst) s.frame_num = false) →
      renderLoopStep inFolder cfg (fsS 0) s
        = Except.ok { s with sleeps := s.sleeps ++ [60] } := by
    intro fsS s h1 h2
    unfold renderLoopStep
    rw [if_neg (by omega), if_pos (h2 0)]
  have hiter : ∀ (n : Nat) (fsS : Nat → FrameStore) (s : RenderState),
      s.rendered_count < cfg.numFrames →
      (∀ i, frame_exists inFolder ((fsS i).map Prod.fst) s.frame_num = false) →
      loopIter inFolder cfg fsS n s
        = Except.ok { s with sleeps := s.sleeps ++ List.replicate n 60 } := by
    intro n
    induction n with
    | zero =>
      intro fsS s h1 h2
      simp [loopIter]
    | succ m ih =>
      intro fsS s h1 h2
      rw [loopIter, hstep fsS s h1 h2]
      dsimp only
      rw [ih (fun i => fsS (i + 1)) { s with sleeps := s.sleeps ++ [60] }
        (by simpa using h1) (fun i => by simpa using h2 (i + 1))]
      simp [List.replicate_succ, List.append_assoc]
  refine ⟨hstep fsSeq st hrun habs, fun n => hiter n fsSeq st hrun habs, ?_⟩
  intro fs st1 st2 hst hneq
  unfold renderLoopStep at hst
  by_cases h1 : cfg.numFrames ≤ st1.rendered_count
  · rw [if_pos h1] at hst
    simp at hst
    exact absurd (by rw [← hst]) hneq
  · rw [if_neg h1] at hst
    by_cases h2 : frame_exists inFolder (fs.map Prod.fst) st1.frame_num = false
    · rw [if_pos h2] at hst
      simp at hst
      exact absurd (by rw [← hst]) hneq
    · simpa using h2

/-- C5 witness: an empty filesystem and a fresh state. -/
theorem wait_and_retry_behavior_witness :
    (0 : Nat) < 1
    ∧ renderLoopStep "sim" ⟨1, 1⟩ [] ⟨0, 0, [], [], []⟩
        = Except.ok ⟨0, 0, [], [], [60]⟩ :=
  ⟨by decide,
   (wait_and_retry_behavior "sim" ⟨1, 1⟩ (fun _ => []) ⟨0, 0, [], [], []⟩
     (by decide) (fun i => rfl)).1⟩

/-- C8: frame_exists holds exactly when the per-frame file of each of the
six configured components is present, and the per-frame path is
inFolder/component/frame_NNNNNN.npy with the zero-padded frame number. -/
theorem frame_path_and_exists (inFolder : String) (existing : List String)
    (n : Nat) :
    (frame_exists inFolder existing n = true ↔
      ∀ c ∈ mesh_components, get_frame_path inFolder c.2 n ∈ existing)
    ∧ mesh_components.length = 6
    ∧ (∀ component : String, get_frame_path inFolder component n
        = inFolder ++ "/" ++ component ++ "/" ++ "frame_" ++ zeroPad6 n ++ ".npy")
    ∧ get_frame_path "sim" "box1" 42 = "sim/box1/frame_000042.npy" := by
  refine ⟨?_, rfl, fun component => rfl, rfl⟩
  rw [frame_exists, List.all_eq_true]
  constructor
  · intro h c hc
    have := h c hc
    simpa [List.elem_iff] using this
  · intro h c hc
    simpa [List.elem_iff] using h c hc

/-- C9: the unroll renderer drops exactly the first 66 rows (the collider)
of each loaded frame array and applies the remaining rows to the mesh;
the update is accepted precisely when the mesh has 66 fewer vertices than
the frame has rows, in which case the mesh receives rows 66 onward. -/
theorem unroll_collider_discard (meshVerts collider rest : List Vec3)
    (hc : collider.length = 66) :
    unrollFrameUpdate meshVerts (collider ++ rest)
      = update_mesh_vertices meshVerts (toNpArray rest)
    ∧ ((unrollFrameUpdate meshVerts (collider ++ rest)).isOk = true ↔
        meshVerts.length + 66 = (collider ++ rest).length)
    ∧ (meshVerts.length = rest.length →
        unrollFrameUpdate meshVerts (collider ++ rest) = Except.ok rest) := by
  have hdrop : (collider ++ rest).drop 66 = rest := by
    rw [← hc]
    exact List.drop_left collider rest
  refine ⟨?_, ?_, ?_⟩
  · rw [unrollFrameUpdate, hdrop]
  · rw [unrollFrameUpdate, hdrop, update_ok_iff]
    simp [toNpArray, hc]
    omega
  · intro h
    rw [unrollFrameUpdate, hdrop, update_toNpArray _ _ h.symm]

/-- C9 witness: a 66-row collider prefix followed by one row, applied to a
1-vertex mesh. -/
theorem unroll_collider_discard_witness :
    (List.replicate 66 ((⟨0, 0, 0⟩ : Vec3))).length = 66
    ∧ unrollFrameUpdate [⟨9, 9, 9⟩]
        (List.replicate 66 (⟨0, 0, 0⟩ : Vec3) ++ [⟨1, 2, 3⟩])
        = Except.ok [⟨1, 2, 3⟩] :=
  ⟨by simp,
   (unroll_collider_discard [⟨9, 9, 9⟩] (List.replicate 66 ⟨0, 0, 0⟩)
     [⟨1, 2, 3⟩] (by simp)).2.2 rfl⟩

/-- C10: orbit_camera preserves both the z-component of the camera's offset
from the orbit center and its squared distance from the orbit center
within the XY plane (the motion is a pure rotation about the vertical axis
through the orbit center), and it leaves the orbit-center and look-at
inputs unmodified.  cos_a and sin_a are the values math.cos and math.sin
return for the rotation angle, so they satisfy the Pythagorean identity. -/
theorem orbit_camera_invariants (w : OrbitWorld) (initial_location : Vec3)
    (cos_a sin_a : ℚ) (h : cos_a ^ 2 + sin_a ^ 2 = 1) :
    ((orbit_camera w initial_location cos_a sin_a).camLocation - w.orbitCenter).z
      = (initial_location - w.orbitCenter).z
    ∧ (((orbit_camera w initial_location cos_a sin_a).camLocation - w.orbitCenter).x ^ 2
        + ((orbit_camera w initial_location cos_a sin_a).camLocation - w.orbitCenter).y ^ 2
        = (initial_location - w.orbitCenter).x ^ 2
          + (initial_location - w.orbitCenter).y ^ 2)
    ∧ (orbit_camera w initial_location cos_a sin_a).orbitCenter = w.orbitCenter
    ∧ (orbit_camera w initial_location cos_a sin_a).lookAt = w.lookAt := by
  refine ⟨?_, ?_, rfl, rfl⟩
  · simp [orbit_camera]
  · simp only [orbit_camera, Vec3.add_x, Vec3.add_y, Vec3.sub_x, Vec3.sub_y]
    ring_nf
    linear_combination ((initial_location.x - w.orbitCenter.x) ^ 2
      + (initial_location.y - w.orbitCenter.y) ^ 2) * h

/-- C10 witness: a concrete world and the cos/sin pair (3/5, 4/5). -/
theorem orbit_camera_invariants_witness :
    ((3 : ℚ) / 5) ^ 2 + ((4 : ℚ) / 5) ^ 2 = 1
    ∧ (((orbit_camera ⟨⟨1, 2, 3⟩, ⟨0, 0, 0⟩, ⟨4, 5, 6⟩, ⟨7, 8, 9⟩⟩ ⟨10, 11, 12⟩
          (3 / 5) (4 / 5)).camLocation - (⟨4, 5, 6⟩ : Vec3)).x ^ 2
        + ((orbit_camera ⟨⟨1, 2, 3⟩, ⟨0, 0, 0⟩, ⟨4, 5, 6⟩, ⟨7, 8, 9⟩⟩ ⟨10, 11, 12⟩
          (3 / 5) (4 / 5)).camLocation - (⟨4, 5, 6⟩ : Vec3)).y ^ 2
        = ((⟨10, 11, 12⟩ : Vec3) - (⟨4, 5, 6⟩ : Vec3)).x ^ 2
          + ((⟨10, 11, 12⟩ : Vec3) - (⟨4, 5, 6⟩ : Vec3)).y ^ 2) :=
  ⟨by norm_num,
   (orbit_camera_invariants ⟨⟨1, 2, 3⟩, ⟨0, 0, 0⟩, ⟨4, 5, 6⟩, ⟨7, 8, 9⟩⟩
     ⟨10, 11, 12⟩ (3 / 5) (4 / 5) (by norm_num)).2.1⟩

end BlenderRenderers
